import Mathlib

/-!
Verification of the interview-session state machine implemented in
`backend/console/views.py` (functions `interview_session_create` and
`interview_session_flow`).

The two HTTP endpoints are shallowly embedded as pure Lean functions.
Language-model invocations (the LangChain `llm.invoke` calls, together with
the content/message payload extraction that follows each of them) are
modelled by an oracle `llm : String → Except String String` mapping the
formatted prompt to the extracted response text, or to an error when the
model call raises.  The external Interview Engine `ai_interviewer` lives in
`console/ai/generate_text.py`, which is not part of the analysed sources; it
is modelled from the spec as an oracle constrained to the contract of spec
section 4.4.  Database rows touched by one call (the one `Applicant` row for
the resolved email and the one `Session` row for the (order, applicant)
pair) are passed in explicitly as `Option` values and returned updated; the
`transaction.atomic` block of the source is reflected by returning the input
rows unchanged whenever the transaction body ends in an exception.
-/

set_option maxRecDepth 100000

namespace Intervuo

/-- Session row: one conversational thread between an applicant and an
agent-bearing order, as read and written by the two endpoints. -/
structure Session where
  ready : Bool
  n_questions : Nat
  last_question : Option String
  last_answer : Option String
  final : Bool
  score : Option Int
  confidence : Option Int
deriving DecidableEq, Repr

/-- Applicant row: identified by email, with an optional skills summary. -/
structure Applicant where
  email : String
  skills : Option String
deriving DecidableEq, Repr

/-- Agent identity record: supplies `agent_name`. -/
structure Identity where
  agent_name : String
deriving DecidableEq, Repr

/-- Agent behaviour record: supplies `agent_greeting`. -/
structure Behaviour where
  agent_greeting : String
deriving DecidableEq, Repr

/-- Agent record with its identity and behaviour children. -/
structure Agent where
  identity : Identity
  behaviour : Behaviour
deriving DecidableEq, Repr

/-- Order record: carries the agent configuration; read-only here. -/
structure Order where
  agent : Agent
deriving DecidableEq, Repr

/-- Python truthiness of a nullable text field: `None` and the empty string
are falsy, any other string is truthy. -/
def truthy : Option String → Bool
  | none => false
  | some s => !(s == "")

/-- Rendering of an optional value interpolated into a prompt, as Python
string formatting does: `None` renders as the text "None". -/
def pyArg : Option String → String
  | none => "None"
  | some s => s

/-- Outcome of an endpoint call, keeping the HTTP status class and payload
fields that the source returns. -/
inductive Resp where
  | ok (ai_text : String) (final : Bool) (score : Option Int) (confidence : Option Int)
  | forbidden (detail : String)
  | notFound (error : String)
  | serverError (error : String)
deriving DecidableEq, Repr

/-- Result of one endpoint call: the response, the post-call state of the
two database rows the call may touch, and how many times the Interview
Engine was invoked during the call. -/
structure FlowResult where
  resp : Resp
  applicantRow : Option Applicant
  sessionRow : Option Session
  engineCalls : Nat
deriving DecidableEq, Repr

/-- Identity resolution shared by both endpoints: an authenticated caller
contributes their account email unconditionally; otherwise the `email`
request parameter is used, rejected when absent or falsy (empty). -/
def resolve_user_email (authEmail emailParam : Option String) : Option String :=
  match authEmail with
  | some e => some e
  | none =>
    match emailParam with
    | none => none
    | some e => if e = "" then none else some e

/-- Stage-2 classification prompt (the first `PromptTemplate` in
`interview_session_flow`), with the applicant text substituted. -/
def skills_prompt (text : String) : String :=
  "Analyze the following text and determine if it mentions any skills:\n\n" ++ text ++
    "\n\nOutput \x270\x27 if no skills are mentioned and \x271\x27 if skills are mentioned."

/-- Stage-2 re-ask prompt used on the classifier no-branch. -/
def missing_skills_prompt (text : String) : String :=
  "You are voice interviewer bot and the job applicant has not provided any skills. Analyze the following text for tone:\n\n"
    ++ text ++
    "\n\nGenerate a polite message asking them to provide their skills again, or indicate if the text is offensive."

/-- Stage-2 summary prompt used on the classifier yes-branch. -/
def skills_description_prompt (text : String) : String :=
  "Based on the following text: \n\n" ++ text ++
    "\n\n, generate a short description that highlights the skills mentioned. \nProvide a concise summary for what the user know and what does not know!"

/-- Stage-2 readiness-check message prompt (no variables). -/
def readiness_message_prompt : String :=
  "You are voice interviewer bot and the user just Generate a message to inform the user that their skills have been noted, and they will be asked questions based on their job description and skills. Ask them to give you information when they are ready."

/-- Stage-3 readiness classification prompt. -/
def ready_prompt (text : String) : String :=
  "Analyze the following text and determine if the user mentions that is ready for starting the interview process:\n\n"
    ++ text ++
    "\n\nOutput \x270\x27 if the user is not ready and \x271\x27 if the user is ready."

/-- Stage-3 waiting message prompt used on the classifier no-branch. -/
def user_said_no (text : String) : String :=
  "You are voice interviewer, and the user is not ready yet to be interviewed. Analyze the following text for tone:\n\n"
    ++ text ++
    "\n\nGenerate a polite message that you are waiting on user to be ready to be interviewed. If the text is offensive indicate to the user to use more natural human language."

/-- Stage-4 ready-to-continue prompt referencing the last question. -/
def previous_context_prompt (last_question : String) : String :=
  "You are voice interviewer. Ask the user if he is ready to continue with the interview:\n\nLast question: "
    ++ last_question ++ "\n\nAre you ready to continue?"

/-- Stage-1 fixed reply asking for skills. -/
def skills_request_text : String :=
  "We started a interview process with you, can you tell me your skills, please?"

/-- Closing message built when the engine has marked the session final,
embedding the integer score. -/
def closing_message (score : Int) : String :=
  "Thanks for your time, we finished with the interview! Your score is " ++ toString score ++
    " percents. Have a good day."

/-- Modelled from the spec: the Interview Engine `ai_interviewer` is defined
in `console/ai/generate_text.py`, which is not among the analysed sources.
Per spec section 4.4 its observable behaviour is an oracle choosing a score,
a reply text, whether this turn concludes the interview, and a confidence
value, each as a function of the applicant text and the session snapshot. -/
structure EngineOracle where
  score : String → Session → Int
  reply : String → Session → String
  finishes : String → Session → Bool
  confidence : String → Session → Int

/-- Modelled from the spec: `Ask(applicant_text, session) -> (score, ai_text)`
with the side effect of incrementing `session.n_questions` and conditionally
setting `session.final`, `session.score`, `session.confidence` (spec section
4.4); no other session field is touched. -/
def ai_interviewer (eng : EngineOracle) (text : String) (s : Session) :
    Int × String × Session :=
  let sc := eng.score text s
  let fin := eng.finishes text s
  (sc, eng.reply text s,
    { s with
      n_questions := s.n_questions + 1
      final := s.final || fin
      score := if fin then some sc else s.score
      confidence := if fin then some (eng.confidence text s) else s.confidence })

/-- Body of the `transaction.atomic` block of `interview_session_flow`:
looks up the applicant and session rows (a missing row raises the Django
DoesNotExist exception, which is not `Order.DoesNotExist` and therefore
escapes to the generic handler), then dispatches on the session stage
exactly as the nested conditionals of the source do.  Returns the response
text, the updated rows, and the number of engine invocations; an `error`
result models an exception leaving the block. -/
def flow_tx (llm : String → Except String String) (eng : EngineOracle)
    (human_text : Option String)
    (appOpt : Option Applicant) (sessOpt : Option Session) :
    Except String (String × Applicant × Session × Nat) :=
  match appOpt with
  | none => .error "Applicant matching query does not exist."
  | some applicant =>
  match sessOpt with
  | none => .error "Session matching query does not exist."
  | some session =>
  if session.n_questions = 0 ∧ truthy session.last_question = false then
    let session := { session with ready := false }
    .ok (skills_request_text, applicant, session, 0)
  else if session.n_questions = 0 ∧ truthy session.last_answer = false then
    let session := { session with ready := false }
    match llm (skills_prompt (pyArg human_text)) with
    | .error e => .error e
    | .ok skills_provided =>
      if skills_provided = "0" then
        match llm (missing_skills_prompt (pyArg human_text)) with
        | .error e => .error e
        | .ok missing_skills_message =>
          .ok (missing_skills_message, applicant, session, 0)
      else
        match llm (skills_description_prompt (pyArg human_text)) with
        | .error e => .error e
        | .ok short_description =>
          let applicant := { applicant with skills := some short_description }
          let session := { session with last_answer := some short_description }
          match llm readiness_message_prompt with
          | .error e => .error e
          | .ok ai_text => .ok (ai_text, applicant, session, 0)
  else if session.n_questions = 0 ∧ truthy session.last_answer = true ∧ session.ready = false then
    match llm (ready_prompt (pyArg human_text)) with
    | .error e => .error e
    | .ok is_ready =>
      if is_ready = "0" then
        match llm (user_said_no (pyArg human_text)) with
        | .error e => .error e
        | .ok ai_text => .ok (ai_text, applicant, session, 0)
      else
        let session := { session with ready := true }
        let r := ai_interviewer eng (pyArg human_text) session
        .ok (r.2.1, applicant, r.2.2, 1)
  else if session.n_questions ≠ 0 ∧ session.ready = false then
    match llm (previous_context_prompt (pyArg session.last_question)) with
    | .error e => .error e
    | .ok ai_text => .ok (ai_text, applicant, session, 0)
  else
    let r := ai_interviewer eng (pyArg human_text) session
    let session := r.2.2
    if session.final then
      match session.score with
      | some sc => .ok (closing_message sc, applicant, session, 1)
      | none =>
        .error "int() argument must be a string, a bytes-like object or a real number, not \x27NoneType\x27"
    else
      .ok (r.2.1, applicant, session, 1)

/-- The `AdvanceSession` endpoint (`interview_session_flow` in the source).
A missing order returns the 404 "Order not found" response; a missing
identity returns the 403 "Email is missing" response; the transaction body
runs last, and an exception inside it rolls the rows back and is turned
into a 500-class response by the outer generic handler. -/
def interview_session_flow (llm : String → Except String String)
    (eng : EngineOracle) (orderOpt : Option Order)
    (authEmail emailParam textParam : Option String)
    (appOpt : Option Applicant) (sessOpt : Option Session) : FlowResult :=
  match orderOpt with
  | none => ⟨Resp.notFound "Order not found", appOpt, sessOpt, 0⟩
  | some _order =>
    match resolve_user_email authEmail emailParam with
    | none => ⟨Resp.forbidden "Email is missing", appOpt, sessOpt, 0⟩
    | some _user_email =>
      match flow_tx llm eng textParam appOpt sessOpt with
      | .ok (ai_text, applicant, session, calls) =>
        ⟨Resp.ok ai_text session.final session.score session.confidence,
          some applicant, some session, calls⟩
      | .error e => ⟨Resp.serverError e, appOpt, sessOpt, 0⟩

/-- Modelled from the spec: the `Session` model defaults applied by
`get_or_create` (the Django model definition in `console/models.py` is not
among the analysed sources).  Spec sections 3 and 4.1: a fresh session
starts with `n_questions = 0`, nullable text and score fields unset, and
`ready` and `final` false. -/
def defaultSession : Session :=
  { ready := false, n_questions := 0, last_question := none, last_answer := none
    final := false, score := none, confidence := none }

/-- Re-entry template for a session that never received a greeting (the
first character of the source literal is followed by a Cyrillic letter,
reproduced verbatim). -/
def reentry_greeting_skills (agent_name : String) : String :=
  "Hеllo again, I am " ++ agent_name ++
    ", your ai interviewer and we started a interview previously. Please describe your experience and skills related to the position you\x27re applying for"

/-- Re-entry template for a session waiting on the readiness confirmation. -/
def reentry_greeting_session (agent_name : String) : String :=
  "Hi, I am " ++ agent_name ++
    " and we started a session. Tell me when you\x27re ready to start with the questions?"

/-- Re-entry template for a session with interview questions already asked. -/
def reentry_greeting_continue (agent_name : String) : String :=
  "Hi, I am " ++ agent_name ++
    " and we started a interview process. Tell me when you\x27re ready to to continue with the questions?"

/-- Re-entry greeting computation on the existing-session path of
`interview_session_create`: the three source conditions in order, and
`none` when no branch assigns the local variable `greeting` (the Python
code then raises an unbound-local error at the following use). -/
def existing_greeting (order : Order) (session : Session) : Option String :=
  if session.n_questions = 0 ∧ truthy session.last_question = false then
    some (reentry_greeting_skills order.agent.identity.agent_name)
  else if session.n_questions = 0 ∧ truthy session.last_answer = false then
    some (reentry_greeting_session order.agent.identity.agent_name)
  else if session.n_questions ≠ 0 then
    some (reentry_greeting_continue order.agent.identity.agent_name)
  else none

/-- Body of the `transaction.atomic` block of `interview_session_create`:
get-or-create the applicant and the session, force `ready := false`, then
set `last_question` to the configured greeting on a freshly created session
or to the re-entry greeting on an existing one.  An unmatched existing-
session stage leaves `greeting` unassigned and raises. -/
def create_tx (order : Order) (user_email : String)
    (appOpt : Option Applicant) (sessOpt : Option Session) :
    Except String (String × Applicant × Session) :=
  let applicant :=
    match appOpt with
    | some a => a
    | none => { email := user_email, skills := none }
  let pr :=
    match sessOpt with
    | some s => (s, false)
    | none => (defaultSession, true)
  let session := { pr.1 with ready := false }
  if pr.2 then
    let greeting := order.agent.behaviour.agent_greeting
    .ok (greeting, applicant, { session with last_question := some greeting })
  else
    match existing_greeting order session with
    | some greeting => .ok (greeting, applicant, { session with last_question := some greeting })
    | none =>
      .error "cannot access local variable \x27greeting\x27 where it is not associated with a value"

/-- The `StartSession` endpoint (`interview_session_create` in the source).
Missing order and missing identity behave as in `AdvanceSession`; this path
never invokes the engine, and an exception in the transaction body rolls
the rows back and surfaces as a 500-class response. -/
def interview_session_create (orderOpt : Option Order)
    (authEmail emailParam : Option String)
    (appOpt : Option Applicant) (sessOpt : Option Session) : FlowResult :=
  match orderOpt with
  | none => ⟨Resp.notFound "Order not found", appOpt, sessOpt, 0⟩
  | some order =>
    match resolve_user_email authEmail emailParam with
    | none => ⟨Resp.forbidden "Email is missing", appOpt, sessOpt, 0⟩
    | some user_email =>
      match create_tx order user_email appOpt sessOpt with
      | .ok (greeting, applicant, session) =>
        ⟨Resp.ok greeting session.final session.score session.confidence,
          some applicant, some session, 0⟩
      | .error e => ⟨Resp.serverError e, appOpt, sessOpt, 0⟩

/-! Concrete fixtures used by counterexamples and witnesses. -/

/-- Sample order: agent named Ava with a configured greeting. -/
def order0 : Order :=
  { agent := { identity := { agent_name := "Ava" }
               behaviour := { agent_greeting := "Welcome to ACME!" } } }

/-- Sample applicant row with no skills summary yet. -/
def app0 : Applicant := { email := "a@b.c", skills := none }

/-- Engine oracle that never finalizes and always replies the same text. -/
def engine0 : EngineOracle :=
  { score := fun _ _ => 0
    reply := fun _ _ => "Next question?"
    finishes := fun _ _ => false
    confidence := fun _ _ => 0 }

/-- Language-model oracle that answers every prompt with a fixed text. -/
def llm0 : String → Except String String := fun _ => .ok "ok"

/-- Session row of a brand-new thread that has been greeted (stage 2). -/
def stage2Session : Session :=
  { defaultSession with last_question := some "Hello, tell me your skills" }

/-- Session row paused between the skills answer and readiness (stage 3). -/
def stage3Session : Session :=
  { defaultSession with
      last_question := some "Hello, tell me your skills"
      last_answer := some "Knows Python and SQL." }

/-- Session row paused mid-interview with the applicant not ready (stage 4). -/
def stage4Session : Session :=
  { ready := false, n_questions := 2, last_question := some "Question two?"
    last_answer := some "Knows Python and SQL.", final := false
    score := none, confidence := none }

/-- Session row of a concluded interview. -/
def finalSession : Session :=
  { ready := true, n_questions := 3, last_question := some "Question three?"
    last_answer := some "Knows Python and SQL.", final := true
    score := some 80, confidence := some 77 }

/-- Session row hitting the uncovered greeting case: no questions asked yet,
but both the last question and the skills answer are recorded. -/
def unmatchedSession : Session :=
  { ready := false, n_questions := 0, last_question := some "Hello, tell me your skills"
    last_answer := some "Knows Python and SQL.", final := false
    score := none, confidence := none }

/-- C8: a `StartSession` call with an unauthenticated caller and no email
parameter fails with the 403-class response whose detail is "Email is
missing", and leaves both database rows exactly as they were, creating
neither an Applicant nor a Session row. -/
theorem startSession_missing_email_forbidden (o : Order)
    (appOpt : Option Applicant) (sessOpt : Option Session) :
    interview_session_create (some o) none none appOpt sessOpt =
      ⟨Resp.forbidden "Email is missing", appOpt, sessOpt, 0⟩ := rfl

/-- C8 witness: the statement at a concrete order with both rows absent. -/
theorem startSession_missing_email_forbidden_witness :
    interview_session_create (some order0) none none none none =
      ⟨Resp.forbidden "Email is missing", none, none, 0⟩ :=
  startSession_missing_email_forbidden order0 none none

/-- C2 counterexample: with an existing order and a resolved email but no
Applicant row and no Session row, `AdvanceSession` returns a 500-class
`serverError` response (the Django DoesNotExist exception is caught by the
generic handler), not the 404-class `NotFound` response the claim states. -/
theorem advanceSession_missing_rows_not_404 :
    interview_session_flow llm0 engine0 (some order0) (some "a@b.c")
        none none none none =
      ⟨Resp.serverError "Applicant matching query does not exist.",
        none, none, 0⟩ := rfl

/-- C2 amended: when the Applicant row or the Session row for the call does
not exist, `AdvanceSession` fails with a 500-class `serverError` response
carrying the DoesNotExist message (the exception is not `Order.DoesNotExist`
and falls to the generic handler) and creates neither record. -/
theorem advanceSession_missing_rows_server_error
    (llm : String → Except String String) (eng : EngineOracle) (o : Order)
    (authEmail emailParam textParam : Option String) (u : String)
    (appOpt : Option Applicant) (sessOpt : Option Session)
    (hre : resolve_user_email authEmail emailParam = some u)
    (h : appOpt = none ∨ sessOpt = none) :
    interview_session_flow llm eng (some o) authEmail emailParam textParam
        appOpt sessOpt =
      ⟨Resp.serverError (if appOpt.isNone then
          "Applicant matching query does not exist."
        else
          "Session matching query does not exist."),
        appOpt, sessOpt, 0⟩ := by
  rcases h with h | h
  · subst h
    simp [interview_session_flow, hre, flow_tx]
  · subst h
    cases appOpt with
    | none => simp [interview_session_flow, hre, flow_tx]
    | some a => simp [interview_session_flow, hre, flow_tx]

/-- C2 witness: concrete instance of the amended statement, with an
existing order, a resolved email, and both rows missing. -/
theorem advanceSession_missing_rows_server_error_witness :
    resolve_user_email (some "a@b.c") none = some "a@b.c" ∧
    interview_session_flow llm0 engine0 (some order0) (some "a@b.c")
        none none none none =
      ⟨Resp.serverError (if (none : Option Applicant).isNone then
          "Applicant matching query does not exist."
        else
          "Session matching query does not exist."),
        none, none, 0⟩ :=
  ⟨rfl,
    advanceSession_missing_rows_server_error llm0 engine0 order0
      (some "a@b.c") none none "a@b.c" none none rfl (Or.inl rfl)⟩

/-- C3: at the stage combination left uncovered by the existing-session
conditional chain (`n_questions == 0` with both `last_question` and
`last_answer` set), `StartSession` does not compute any greeting: the local
variable `greeting` is read unassigned, the resulting exception aborts the
transaction, and the call returns a 500-class response with the rows rolled
back — the greeting computation is not total. -/
theorem startSession_unbound_greeting :
    interview_session_create (some order0) (some "a@b.c") none
        (some app0) (some unmatchedSession) =
      ⟨Resp.serverError
          "cannot access local variable \x27greeting\x27 where it is not associated with a value",
        some app0, some unmatchedSession, 0⟩ := rfl

/-- C5 counterexample: on a pre-existing session with `n_questions == 0` and
`last_question = None`, `StartSession` stores the fixed re-entry template
(parameterized by agent name), which differs from the order configured
greeting the claim promises. -/
theorem startSession_reentry_not_configured_greeting :
    (interview_session_create (some order0) (some "a@b.c") none
        (some app0) (some defaultSession)).sessionRow.map Session.last_question =
      some (some (reentry_greeting_skills "Ava")) ∧
    reentry_greeting_skills "Ava" ≠ order0.agent.behaviour.agent_greeting :=
  ⟨rfl, by decide⟩

/-- C5 amended: for a newly created session `StartSession` sets
`last_question` to the order configured greeting, while for a pre-existing
session with `n_questions == 0` and `last_question` unset it sets
`last_question` to the fixed skills re-entry template parameterized by the
agent name; in both cases `ready` is forced to false regardless of its
prior value. -/
theorem startSession_greeting_assignment
    (o : Order) (authEmail emailParam : Option String) (u : String)
    (appOpt : Option Applicant) (s : Session)
    (hre : resolve_user_email authEmail emailParam = some u)
    (h0 : s.n_questions = 0) (hq : truthy s.last_question = false) :
    ((interview_session_create (some o) authEmail emailParam appOpt
          none).sessionRow.map Session.last_question =
        some (some o.agent.behaviour.agent_greeting) ∧
      (interview_session_create (some o) authEmail emailParam appOpt
          none).sessionRow.map Session.ready = some false) ∧
    ((interview_session_create (some o) authEmail emailParam appOpt
          (some s)).sessionRow.map Session.last_question =
        some (some (reentry_greeting_skills o.agent.identity.agent_name)) ∧
      (interview_session_create (some o) authEmail emailParam appOpt
          (some s)).sessionRow.map Session.ready = some false) := by
  refine ⟨⟨?_, ?_⟩, ⟨?_, ?_⟩⟩ <;>
    simp [interview_session_create, hre, create_tx, existing_greeting, h0, hq]

/-- C5 witness: concrete instance of the amended statement, run once on a
missing session row and once on a pre-existing never-greeted session row
whose prior `ready` value is true. -/
theorem startSession_greeting_assignment_witness :
    resolve_user_email (some "a@b.c") none = some "a@b.c" ∧
    ({ defaultSession with ready := true } : Session).n_questions = 0 ∧
    truthy ({ defaultSession with ready := true } : Session).last_question = false ∧
    (((interview_session_create (some order0) (some "a@b.c") none (some app0)
          none).sessionRow.map Session.last_question =
        some (some order0.agent.behaviour.agent_greeting) ∧
      (interview_session_create (some order0) (some "a@b.c") none (some app0)
          none).sessionRow.map Session.ready = some false) ∧
    ((interview_session_create (some order0) (some "a@b.c") none (some app0)
          (some { defaultSession with ready := true })).sessionRow.map Session.last_question =
        some (some (reentry_greeting_skills order0.agent.identity.agent_name)) ∧
      (interview_session_create (some order0) (some "a@b.c") none (some app0)
          (some { defaultSession with ready := true })).sessionRow.map Session.ready =
        some false)) :=
  ⟨rfl, rfl, rfl,
    startSession_greeting_assignment order0 (some "a@b.c") none "a@b.c"
      (some app0) { defaultSession with ready := true } rfl rfl rfl⟩

/-- C9: whenever `AdvanceSession` ends in a 500-class response (in
particular when a language-model invocation fails partway through a stage),
the transaction is rolled back as a whole: both the applicant row and the
session row come out exactly as they went in, regardless of any save
performed earlier inside the call. -/
theorem advanceSession_error_rolls_back
    (llm : String → Except String String) (eng : EngineOracle)
    (orderOpt : Option Order) (authEmail emailParam textParam : Option String)
    (appOpt : Option Applicant) (sessOpt : Option Session) (e : String)
    (h : (interview_session_flow llm eng orderOpt authEmail emailParam
        textParam appOpt sessOpt).resp = Resp.serverError e) :
    (interview_session_flow llm eng orderOpt authEmail emailParam textParam
        appOpt sessOpt).applicantRow = appOpt ∧
    (interview_session_flow llm eng orderOpt authEmail emailParam textParam
        appOpt sessOpt).sessionRow = sessOpt := by
  cases orderOpt with
  | none => simp [interview_session_flow] at h ⊢
  | some o =>
    cases hre : resolve_user_email authEmail emailParam with
    | none => simp [interview_session_flow, hre] at h ⊢
    | some u =>
      cases htx : flow_tx llm eng textParam appOpt sessOpt with
      | ok r =>
        obtain ⟨txt, a, s, k⟩ := r
        simp [interview_session_flow, hre, htx] at h
      | error e2 => simp [interview_session_flow, hre, htx]

/-- Language-model oracle that classifies the sample text as mentioning
skills and produces its summary, but fails on the subsequent readiness
message — a model failure in the middle of stage 2, after the skills and
last-answer writes. -/
def llmFailLate : String → Except String String := fun p =>
  if p = readiness_message_prompt then .error "model timeout"
  else if p = skills_description_prompt "I know Python and SQL" then
    .ok "Knows Python and SQL."
  else .ok "1"

/-- C9 witness: a stage-2 call whose final model invocation fails after
`applicant.skills` and `session.last_answer` were already saved; the rows
nevertheless come back unchanged. -/
theorem advanceSession_error_rolls_back_witness :
    (interview_session_flow llmFailLate engine0 (some order0) (some "a@b.c")
        none (some "I know Python and SQL") (some app0)
        (some stage2Session)).resp = Resp.serverError "model timeout" ∧
    ((interview_session_flow llmFailLate engine0 (some order0) (some "a@b.c")
        none (some "I know Python and SQL") (some app0)
        (some stage2Session)).applicantRow = some app0 ∧
      (interview_session_flow llmFailLate engine0 (some order0) (some "a@b.c")
        none (some "I know Python and SQL") (some app0)
        (some stage2Session)).sessionRow = some stage2Session) :=
  ⟨rfl,
    advanceSession_error_rolls_back llmFailLate engine0 (some order0)
      (some "a@b.c") none (some "I know Python and SQL") (some app0)
      (some stage2Session) "model timeout" rfl⟩

/-- Helper for the frame property: any successful transaction body that
performed no engine invocation returns a session row whose `last_question`
equals the stored one. -/
theorem flow_tx_zero_calls_last_question
    (llm : String → Except String String) (eng : EngineOracle)
    (t : Option String) (appOpt : Option Applicant) (sessOpt : Option Session)
    (txt : String) (a : Applicant) (s : Session)
    (h : flow_tx llm eng t appOpt sessOpt = .ok (txt, a, s, 0)) :
    sessOpt.map Session.last_question = some s.last_question := by
  cases appOpt with
  | none => simp [flow_tx] at h
  | some a0 =>
    cases sessOpt with
    | none => simp [flow_tx] at h
    | some s0 =>
      simp only [flow_tx] at h
      split at h
      · simp only [Except.ok.injEq, Prod.mk.injEq] at h
        obtain ⟨-, -, h3, -⟩ := h
        subst h3
        simp
      · split at h
        · cases hl : llm (skills_prompt (pyArg t)) with
          | error e => simp [hl] at h
          | ok skills_provided =>
            simp only [hl] at h
            by_cases hz : skills_provided = "0"
            · rw [if_pos hz] at h
              cases hm : llm (missing_skills_prompt (pyArg t)) with
              | error e => simp [hm] at h
              | ok msg =>
                simp only [hm, Except.ok.injEq, Prod.mk.injEq] at h
                obtain ⟨-, -, h3, -⟩ := h
                subst h3
                simp
            · rw [if_neg hz] at h
              cases hd : llm (skills_description_prompt (pyArg t)) with
              | error e => simp [hd] at h
              | ok d =>
                simp only [hd] at h
                cases hr : llm readiness_message_prompt with
                | error e => simp [hr] at h
                | ok r =>
                  simp only [hr, Except.ok.injEq, Prod.mk.injEq] at h
                  obtain ⟨-, -, h3, -⟩ := h
                  subst h3
                  simp
        · split at h
          · cases hc : llm (ready_prompt (pyArg t)) with
            | error e => simp [hc] at h
            | ok is_ready =>
              simp only [hc] at h
              by_cases hz : is_ready = "0"
              · rw [if_pos hz] at h
                cases hn : llm (user_said_no (pyArg t)) with
                | error e => simp [hn] at h
                | ok msg =>
                  simp only [hn, Except.ok.injEq, Prod.mk.injEq] at h
                  obtain ⟨-, -, h3, -⟩ := h
                  subst h3
                  simp
              · rw [if_neg hz] at h
                simp at h
          · split at h
            · cases hp : llm (previous_context_prompt (pyArg s0.last_question)) with
              | error e => simp [hp] at h
              | ok msg =>
                simp only [hp, Except.ok.injEq, Prod.mk.injEq] at h
                obtain ⟨-, -, h3, -⟩ := h
                subst h3
                simp
            · split at h
              · split at h
                · simp at h
                · simp at h
              · simp at h

/-- C10: an `AdvanceSession` call that performed no Interview Engine
invocation (stages 1, 2, 4 and the stage-3 no-branch) never writes
`session.last_question`: the stored value after the call is exactly the
value before it. -/
theorem advanceSession_preserves_last_question
    (llm : String → Except String String) (eng : EngineOracle)
    (orderOpt : Option Order) (authEmail emailParam textParam : Option String)
    (appOpt : Option Applicant) (sessOpt : Option Session)
    (h : (interview_session_flow llm eng orderOpt authEmail emailParam
        textParam appOpt sessOpt).engineCalls = 0) :
    (interview_session_flow llm eng orderOpt authEmail emailParam textParam
        appOpt sessOpt).sessionRow.map Session.last_question =
      sessOpt.map Session.last_question := by
  cases orderOpt with
  | none => simp [interview_session_flow]
  | some o =>
    cases hre : resolve_user_email authEmail emailParam with
    | none => simp [interview_session_flow, hre]
    | some u =>
      cases htx : flow_tx llm eng textParam appOpt sessOpt with
      | ok r =>
        obtain ⟨txt, a, s, k⟩ := r
        have hk : k = 0 := by
          simpa [interview_session_flow, hre, htx] using h
        subst hk
        have hq := flow_tx_zero_calls_last_question llm eng textParam appOpt
          sessOpt txt a s htx
        simp [interview_session_flow, hre, htx, hq.symm]
      | error e2 => simp [interview_session_flow, hre, htx]

/-- C10 witness: a stage-4 call (questions already asked, applicant not
ready) performs no engine invocation and leaves `last_question` holding the
question persisted by the earlier call. -/
theorem advanceSession_preserves_last_question_witness :
    (interview_session_flow llm0 engine0 (some order0) (some "a@b.c") none
        (some "one moment please") (some app0)
        (some stage4Session)).engineCalls = 0 ∧
    (interview_session_flow llm0 engine0 (some order0) (some "a@b.c") none
        (some "one moment please") (some app0)
        (some stage4Session)).sessionRow.map Session.last_question =
      (some stage4Session : Option Session).map Session.last_question :=
  ⟨rfl,
    advanceSession_preserves_last_question llm0 engine0 (some order0)
      (some "a@b.c") none (some "one moment please") (some app0)
      (some stage4Session) rfl⟩

/-- C6: in stage 2, when the classifier answers exactly "1", the generated
summary is stored both into `applicant.skills` and into
`session.last_answer`, and the session comes out of the call with
`ready = false`. -/
theorem advanceSession_skills_yes_branch
    (llm : String → Except String String) (eng : EngineOracle) (o : Order)
    (authEmail emailParam t : Option String) (u d r : String)
    (a : Applicant) (s : Session)
    (hre : resolve_user_email authEmail emailParam = some u)
    (h0 : s.n_questions = 0) (hq : truthy s.last_question = true)
    (ha : truthy s.last_answer = false)
    (hc : llm (skills_prompt (pyArg t)) = .ok "1")
    (hd : llm (skills_description_prompt (pyArg t)) = .ok d)
    (hm : llm readiness_message_prompt = .ok r) :
    (interview_session_flow llm eng (some o) authEmail emailParam t (some a)
        (some s)).applicantRow.map Applicant.skills = some (some d) ∧
    (interview_session_flow llm eng (some o) authEmail emailParam t (some a)
        (some s)).sessionRow.map Session.last_answer = some (some d) ∧
    (interview_session_flow llm eng (some o) authEmail emailParam t (some a)
        (some s)).sessionRow.map Session.ready = some false := by
  refine ⟨?_, ?_, ?_⟩ <;>
    simp [interview_session_flow, hre, flow_tx, h0, hq, ha, hc, hd, hm]

/-- Language-model oracle for the stage-2 yes-branch: classifies the sample
text as mentioning skills, summarizes it, and produces the readiness
message. -/
def llmStage2 : String → Except String String := fun p =>
  if p = skills_description_prompt "I know Python and SQL" then
    .ok "Knows Python and SQL."
  else if p = readiness_message_prompt then
    .ok "Noted. Tell me when you are ready."
  else .ok "1"

/-- C6 witness: concrete stage-2 call whose classifier answers "1". -/
theorem advanceSession_skills_yes_branch_witness :
    llmStage2 (skills_prompt (pyArg (some "I know Python and SQL"))) = .ok "1" ∧
    ((interview_session_flow llmStage2 engine0 (some order0) (some "a@b.c")
        none (some "I know Python and SQL") (some app0)
        (some stage2Session)).applicantRow.map Applicant.skills =
      some (some "Knows Python and SQL.") ∧
    (interview_session_flow llmStage2 engine0 (some order0) (some "a@b.c")
        none (some "I know Python and SQL") (some app0)
        (some stage2Session)).sessionRow.map Session.last_answer =
      some (some "Knows Python and SQL.") ∧
    (interview_session_flow llmStage2 engine0 (some order0) (some "a@b.c")
        none (some "I know Python and SQL") (some app0)
        (some stage2Session)).sessionRow.map Session.ready = some false) :=
  ⟨rfl,
    advanceSession_skills_yes_branch llmStage2 engine0 order0 (some "a@b.c")
      none (some "I know Python and SQL") "a@b.c" "Knows Python and SQL."
      "Noted. Tell me when you are ready." app0 stage2Session
      rfl rfl rfl rfl rfl rfl rfl⟩

/-- C7: in stage 3, when the classifier answers exactly "1", the session
becomes `ready = true` and the Interview Engine is invoked exactly once
during the call. -/
theorem advanceSession_readiness_yes_branch
    (llm : String → Except String String) (eng : EngineOracle) (o : Order)
    (authEmail emailParam t : Option String) (u : String)
    (a : Applicant) (s : Session)
    (hre : resolve_user_email authEmail emailParam = some u)
    (h0 : s.n_questions = 0) (hq : truthy s.last_question = true)
    (ha : truthy s.last_answer = true) (hr : s.ready = false)
    (hc : llm (ready_prompt (pyArg t)) = .ok "1") :
    (interview_session_flow llm eng (some o) authEmail emailParam t (some a)
        (some s)).engineCalls = 1 ∧
    (interview_session_flow llm eng (some o) authEmail emailParam t (some a)
        (some s)).sessionRow.map Session.ready = some true := by
  constructor <;>
    simp [interview_session_flow, hre, flow_tx, ai_interviewer, h0, hq, ha,
      hr, hc]

/-- Language-model oracle that answers every prompt with the literal "1". -/
def llmOne : String → Except String String := fun _ => .ok "1"

/-- C7 witness: concrete stage-3 call whose classifier answers "1". -/
theorem advanceSession_readiness_yes_branch_witness :
    llmOne (ready_prompt (pyArg (some "I am ready"))) = .ok "1" ∧
    ((interview_session_flow llmOne engine0 (some order0) (some "a@b.c")
        none (some "I am ready") (some app0)
        (some stage3Session)).engineCalls = 1 ∧
    (interview_session_flow llmOne engine0 (some order0) (some "a@b.c")
        none (some "I am ready") (some app0)
        (some stage3Session)).sessionRow.map Session.ready = some true) :=
  ⟨rfl,
    advanceSession_readiness_yes_branch llmOne engine0 order0 (some "a@b.c")
      none (some "I am ready") "a@b.c" app0 stage3Session
      rfl rfl rfl rfl rfl rfl⟩

/-- Language-model oracle whose classification answers are a verbose
sentence — neither "0" nor "1". -/
def llmVerbose : String → Except String String := fun p =>
  if p = skills_description_prompt "I know Python and SQL" then
    .ok "Knows Python and SQL."
  else if p = readiness_message_prompt then
    .ok "Noted. Tell me when you are ready."
  else .ok "Yes, absolutely."

/-- C1 counterexample: a stage-2 call whose classifier output is a verbose
sentence, neither "0" nor "1", takes the yes branch — the summary is stored
into `applicant.skills` and `session.last_answer` and the readiness message
is returned — rather than the no/default re-ask branch the claim states. -/
theorem advanceSession_verbose_output_takes_yes_branch :
    llmVerbose (skills_prompt "I know Python and SQL") = .ok "Yes, absolutely." ∧
    "Yes, absolutely." ≠ "0" ∧ "Yes, absolutely." ≠ "1" ∧
    interview_session_flow llmVerbose engine0 (some order0) (some "a@b.c")
        none (some "I know Python and SQL") (some app0) (some stage2Session) =
      ⟨Resp.ok "Noted. Tell me when you are ready." false none none,
        some { app0 with skills := some "Knows Python and SQL." },
        some { stage2Session with
                ready := false, last_answer := some "Knows Python and SQL." },
        0⟩ :=
  ⟨rfl, by decide, by decide, rfl⟩

/-- C1 amended: the classifying branches compare the model output only
against the literal "0".  Output exactly "0" takes the no/default branch:
stage 2 returns the re-ask message with `applicant.skills` and
`session.last_answer` untouched, stage 3 returns the waiting message with
`ready` still false and no engine call.  Any other output — the literal "1"
or any verbose sentence — takes the yes branch: stage 2 stores the
generated summary, stage 3 marks the session ready and invokes the engine
once. -/
theorem advanceSession_nonzero_output_takes_yes_branch
    (llm llm₀ : String → Except String String) (eng : EngineOracle) (o : Order)
    (authEmail emailParam t : Option String) (u c₂ c₃ d r m₂ m₃ : String)
    (a : Applicant) (s₂ s₃ : Session)
    (hre : resolve_user_email authEmail emailParam = some u)
    (h20 : s₂.n_questions = 0) (h2q : truthy s₂.last_question = true)
    (h2a : truthy s₂.last_answer = false)
    (hc2 : llm (skills_prompt (pyArg t)) = .ok c₂) (hc2ne : c₂ ≠ "0")
    (hd : llm (skills_description_prompt (pyArg t)) = .ok d)
    (hm : llm readiness_message_prompt = .ok r)
    (h30 : s₃.n_questions = 0) (h3q : truthy s₃.last_question = true)
    (h3a : truthy s₃.last_answer = true) (h3r : s₃.ready = false)
    (hc3 : llm (ready_prompt (pyArg t)) = .ok c₃) (hc3ne : c₃ ≠ "0")
    (hz2 : llm₀ (skills_prompt (pyArg t)) = .ok "0")
    (hz2m : llm₀ (missing_skills_prompt (pyArg t)) = .ok m₂)
    (hz3 : llm₀ (ready_prompt (pyArg t)) = .ok "0")
    (hz3m : llm₀ (user_said_no (pyArg t)) = .ok m₃) :
    ((interview_session_flow llm eng (some o) authEmail emailParam t (some a)
          (some s₂)).applicantRow.map Applicant.skills = some (some d) ∧
      (interview_session_flow llm eng (some o) authEmail emailParam t (some a)
          (some s₂)).sessionRow.map Session.last_answer = some (some d)) ∧
    ((interview_session_flow llm eng (some o) authEmail emailParam t (some a)
          (some s₃)).engineCalls = 1 ∧
      (interview_session_flow llm eng (some o) authEmail emailParam t (some a)
          (some s₃)).sessionRow.map Session.ready = some true) ∧
    (interview_session_flow llm₀ eng (some o) authEmail emailParam t (some a)
        (some s₂) =
      ⟨Resp.ok m₂ s₂.final s₂.score s₂.confidence, some a,
        some { s₂ with ready := false }, 0⟩) ∧
    (interview_session_flow llm₀ eng (some o) authEmail emailParam t (some a)
        (some s₃) =
      ⟨Resp.ok m₃ s₃.final s₃.score s₃.confidence, some a, some s₃, 0⟩) := by
  refine ⟨⟨?_, ?_⟩, ⟨?_, ?_⟩, ?_, ?_⟩
  · simp [interview_session_flow, hre, flow_tx, h20, h2q, h2a, hc2, hc2ne, hd, hm]
  · simp [interview_session_flow, hre, flow_tx, h20, h2q, h2a, hc2, hc2ne, hd, hm]
  · simp [interview_session_flow, hre, flow_tx, ai_interviewer, h30, h3q, h3a,
      h3r, hc3, hc3ne]
  · simp [interview_session_flow, hre, flow_tx, ai_interviewer, h30, h3q, h3a,
      h3r, hc3, hc3ne]
  · simp [interview_session_flow, hre, flow_tx, h20, h2q, h2a, hz2, hz2m]
  · simp [interview_session_flow, hre, flow_tx, h30, h3q, h3a, h3r, hz3, hz3m]

/-- Language-model oracle whose classification answers are the literal "0"
and which produces fixed re-ask and waiting messages. -/
def llmZero : String → Except String String := fun p =>
  if p = missing_skills_prompt "I know Python and SQL" then
    .ok "Please tell me your skills again."
  else if p = user_said_no "I know Python and SQL" then
    .ok "I am waiting until you are ready."
  else .ok "0"

/-- C1 witness: the amended statement with the verbose-output oracle on the
yes side and the "0"-output oracle on the no side, each run once on a
stage-2 session and once on a stage-3 session. -/
theorem advanceSession_nonzero_output_takes_yes_branch_witness :
    llmVerbose (skills_prompt (pyArg (some "I know Python and SQL"))) =
      .ok "Yes, absolutely." ∧
    llmVerbose (ready_prompt (pyArg (some "I know Python and SQL"))) =
      .ok "Yes, absolutely." ∧
    "Yes, absolutely." ≠ "0" ∧
    llmZero (skills_prompt (pyArg (some "I know Python and SQL"))) = .ok "0" ∧
    llmZero (ready_prompt (pyArg (some "I know Python and SQL"))) = .ok "0" ∧
    (((interview_session_flow llmVerbose engine0 (some order0) (some "a@b.c")
          none (some "I know Python and SQL") (some app0)
          (some stage2Session)).applicantRow.map Applicant.skills =
        some (some "Knows Python and SQL.") ∧
      (interview_session_flow llmVerbose engine0 (some order0) (some "a@b.c")
          none (some "I know Python and SQL") (some app0)
          (some stage2Session)).sessionRow.map Session.last_answer =
        some (some "Knows Python and SQL.")) ∧
    ((interview_session_flow llmVerbose engine0 (some order0) (some "a@b.c")
          none (some "I know Python and SQL") (some app0)
          (some stage3Session)).engineCalls = 1 ∧
      (interview_session_flow llmVerbose engine0 (some order0) (some "a@b.c")
          none (some "I know Python and SQL") (some app0)
          (some stage3Session)).sessionRow.map Session.ready = some true) ∧
    (interview_session_flow llmZero engine0 (some order0) (some "a@b.c")
        none (some "I know Python and SQL") (some app0) (some stage2Session) =
      ⟨Resp.ok "Please tell me your skills again." stage2Session.final
          stage2Session.score stage2Session.confidence,
        some app0, some { stage2Session with ready := false }, 0⟩) ∧
    (interview_session_flow llmZero engine0 (some order0) (some "a@b.c")
        none (some "I know Python and SQL") (some app0) (some stage3Session) =
      ⟨Resp.ok "I am waiting until you are ready." stage3Session.final
          stage3Session.score stage3Session.confidence,
        some app0, some stage3Session, 0⟩)) :=
  ⟨rfl, rfl, by decide, rfl, rfl,
    advanceSession_nonzero_output_takes_yes_branch llmVerbose llmZero engine0
      order0 (some "a@b.c") none (some "I know Python and SQL") "a@b.c"
      "Yes, absolutely." "Yes, absolutely." "Knows Python and SQL."
      "Noted. Tell me when you are ready." "Please tell me your skills again."
      "I am waiting until you are ready." app0 stage2Session stage3Session
      rfl rfl rfl rfl rfl (by decide) rfl rfl rfl rfl rfl rfl rfl (by decide)
      rfl rfl rfl rfl⟩

/-- C4 counterexample: on a session already final (score 80, confidence 77),
a further `AdvanceSession` call does invoke the Interview Engine again — the
engine runs once and `n_questions` is incremented from 3 to 4 — contrary to
the claim that the stored values are returned without re-invoking the
engine. -/
theorem advanceSession_final_reinvokes_engine :
    (interview_session_flow llm0 engine0 (some order0) (some "a@b.c") none
        (some "thanks, goodbye") (some app0)
        (some finalSession)).engineCalls = 1 ∧
    (interview_session_flow llm0 engine0 (some order0) (some "a@b.c") none
        (some "thanks, goodbye") (some app0)
        (some finalSession)).sessionRow.map Session.n_questions = some 4 :=
  ⟨rfl, rfl⟩

/-- C4 amended: for a session with `final = true` already set and
`n_questions ≠ 0`, the behaviour of a further `AdvanceSession` call depends
on `ready`.  With `ready = true` (the state right after the finalizing
turn) the call dispatches to the engine branch and invokes the Interview
Engine exactly once more, incrementing `n_questions`; when the engine does
not finalize the turn again, the stored score and confidence are returned
unchanged and `ai_text` is the closing message embedding the stored integer
score.  With `ready = false` (reachable because `StartSession` forces
`ready = false` on an existing final session) the call takes the
ready-to-continue branch: no engine invocation, rows unchanged, and the
stored score, confidence and final flag are returned with the generated
ready-to-continue message as `ai_text`. -/
theorem advanceSession_final_replay
    (llm : String → Except String String) (eng : EngineOracle) (o : Order)
    (authEmail emailParam t : Option String) (u m : String)
    (a : Applicant) (s s' : Session) (sc : Int)
    (hre : resolve_user_email authEmail emailParam = some u)
    (hn : s.n_questions ≠ 0) (hr : s.ready = true) (hf : s.final = true)
    (hs : s.score = some sc)
    (hfin : eng.finishes (pyArg t) s = false)
    (hn' : s'.n_questions ≠ 0) (hr' : s'.ready = false) (hf' : s'.final = true)
    (hm : llm (previous_context_prompt (pyArg s'.last_question)) = .ok m) :
    (interview_session_flow llm eng (some o) authEmail emailParam t (some a)
        (some s) =
      ⟨Resp.ok (closing_message sc) true (some sc) s.confidence, some a,
        some { s with n_questions := s.n_questions + 1, score := some sc },
        1⟩) ∧
    (interview_session_flow llm eng (some o) authEmail emailParam t (some a)
        (some s') =
      ⟨Resp.ok m true s'.score s'.confidence, some a, some s', 0⟩) := by
  constructor
  · simp [interview_session_flow, hre, flow_tx, ai_interviewer, hn, hr, hf,
      hs, hfin]
  · simp [interview_session_flow, hre, flow_tx, hn', hr', hf', hm]

/-- Session row of a concluded interview re-entered through `StartSession`,
which forced `ready` back to false. -/
def finalPausedSession : Session := { finalSession with ready := false }

/-- C4 witness: the amended statement on the concrete final session, once
still `ready` and once with `ready` forced back to false. -/
theorem advanceSession_final_replay_witness :
    finalSession.final = true ∧ finalSession.ready = true ∧
    finalSession.score = some 80 ∧
    finalPausedSession.final = true ∧ finalPausedSession.ready = false ∧
    ((interview_session_flow llm0 engine0 (some order0) (some "a@b.c") none
        (some "thanks, goodbye") (some app0) (some finalSession) =
      ⟨Resp.ok (closing_message 80) true (some 80) finalSession.confidence,
        some app0,
        some { finalSession with
                n_questions := finalSession.n_questions + 1, score := some 80 },
        1⟩) ∧
    (interview_session_flow llm0 engine0 (some order0) (some "a@b.c") none
        (some "thanks, goodbye") (some app0) (some finalPausedSession) =
      ⟨Resp.ok "ok" true finalPausedSession.score finalPausedSession.confidence,
        some app0, some finalPausedSession, 0⟩)) :=
  ⟨rfl, rfl, rfl, rfl, rfl,
    advanceSession_final_replay llm0 engine0 order0 (some "a@b.c") none
      (some "thanks, goodbye") "a@b.c" "ok" app0 finalSession
      finalPausedSession 80
      rfl (by decide) rfl rfl rfl rfl (by decide) rfl rfl rfl⟩

end Intervuo
